import Mathlib

/-!
Verification of the fintek polling engine against its specification.

The Rust sources (`src/lib.rs`, `src/main.rs`, `src/metrics/mod.rs`) are
shallowly embedded below: pure functions become Lean functions on `Nat`
(Rust `u64` arithmetic, with wrapping made explicit by `% 2 ^ 64` where it
can occur), fallible paths become `Option`/`Except`, a Rust panic is
modelled as `none` in an outer `Option`, and network/filesystem effects
become explicit inputs describing what the effect produced.
-/

/-- Modulus of Rust `u64` arithmetic. -/
def u64Mod : Nat := 2 ^ 64

/-- JSON values as produced by a JSON parser; models `serde_json::Value`.
Numbers are carried as exact rationals. -/
inductive Json where
  | null
  | bool (b : Bool)
  | num (q : Rat)
  | str (s : String)
  | arr (elems : List Json)
  | obj (fields : List (String × Json))

/-- Indexing a JSON value with an object key, models `value["key"]` on a
shared `serde_json::Value` reference: the field's value when the receiver
is an object that has the key, `Null` otherwise (never a panic). -/
def Json.index (v : Json) (key : String) : Json :=
  match v with
  | .obj fields => (fields.lookup key).getD .null
  | _ => .null

/-- Models `serde_json::Value::as_bool`. -/
def Json.asBool : Json → Option Bool
  | .bool b => some b
  | _ => none

/-- Models `serde_json::Value::as_str`. -/
def Json.asStr : Json → Option String
  | .str s => some s
  | _ => none

/-- Models `serde_json::Value::as_array`. -/
def Json.asArray : Json → Option (List Json)
  | .arr elems => some elems
  | _ => none

/-- `calculate_sleep_duration` from `src/lib.rs` lines 88-117, verbatim.
`checked_div(..).unwrap_or_default()` and `checked_sub(..).unwrap_or_default()`
on `u64` are exactly `Nat` division (0 on a zero divisor, unreachable here)
and `Nat` truncated subtraction (0 on underflow). The `usize → u64` cast of
`num_tickers` is lossless. -/
def calculate_sleep_duration (num_tickers rate_limit1 period_in_seconds1
    rate_limit2 period_in_seconds2 : Nat) : Option Nat :=
  if num_tickers = 0 then
    none
  else
    let calls_per_ticker1 := rate_limit1 / num_tickers
    let sleep_duration1 := period_in_seconds1 - calls_per_ticker1
    let calls_per_ticker2 := rate_limit2 - num_tickers
    let sleep_duration2 := period_in_seconds2 - calls_per_ticker2
    some (min sleep_duration1 sleep_duration2)

/-- Value of a list of decimal digit characters. -/
def digitsToNat (ds : List Char) : Nat :=
  ds.foldl (fun acc c => acc * 10 + (c.toNat - 48)) 0

/-- Models Rust `str::parse::<u64>()` (`u64::from_str`): an optional leading
`+`, then one or more decimal digits, value below `2 ^ 64`; anything else is
a parse error. -/
def parseU64 (s : String) : Option Nat :=
  let cs : List Char :=
    match s.data with
    | '+' :: rest => rest
    | cs => cs
  if cs.isEmpty then none
  else if cs.all Char.isDigit then
    if digitsToNat cs < u64Mod then some (digitsToNat cs) else none
  else none

/-- Models Rust `str::split(sep)` on a single-character separator: the
(always nonempty) list of chunks between occurrences of `sep`, keeping
empty chunks. -/
def splitChar (sep : Char) : List Char → List (List Char)
  | [] => [[]]
  | c :: rest =>
    if c = sep then [] :: splitChar sep rest
    else
      match splitChar sep rest with
      | [] => [[c]]
      | g :: gs => (c :: g) :: gs

/-- The chunks of `str::split(':')` as strings. -/
def splitColon (s : String) : List String :=
  (splitChar ':' s.data).map String.mk

/-- What one call to the market-state endpoint produced, as seen by
`should_sleep`: either a transport failure (of `reqwest::get` or
`Response::text`, both behind `?`), or a body whose `serde_json` parse
result is `some` value or `none` on a syntax error. -/
inductive FetchResult where
  | transportErr
  | body (parsed : Option Json)

/-- The record loop of `should_sleep`, `src/lib.rs` lines 62-82. For each
object in turn: if `is_market_open` is a boolean, return 0 when `true`,
otherwise split `time_to_open` (defaulting to `"0:0:0"` when absent or not
a string) on `':'` and return `h*3600 + m*60 + s` in wrapping `u64`
arithmetic, each component defaulting to 0 when it fails to parse. Rust
indexes chunks `[0]`, `[1]` and `[2]` of the split, which panics — modelled
as `none` — when the split has fewer than three chunks. Objects without a
boolean `is_market_open` are skipped; an exhausted loop yields `Ok(0)`. -/
def processRecords : List Json → Option Nat
  | [] => some 0
  | object :: rest =>
    match (object.index "is_market_open").asBool with
    | some true => some 0
    | some false =>
      let time_to_open := ((object.index "time_to_open").asStr).getD "0:0:0"
      let parts := splitColon time_to_open
      if 3 ≤ parts.length then
        let hours := (parseU64 (parts.getD 0 "")).getD 0
        let minutes := (parseU64 (parts.getD 1 "")).getD 0
        let seconds := (parseU64 (parts.getD 2 "")).getD 0
        some ((hours * 3600 + minutes * 60 + seconds) % u64Mod)
      else
        none
    | none => processRecords rest

/-- `should_sleep` from `src/lib.rs` lines 52-86. A transport failure is
propagated by `?` as `Err` (modelled `Except.error ()`); a body whose JSON
parse fails is replaced by `Value::Null` via `unwrap_or_default`, and a
non-array value falls through to `Ok(0)`. The outer `Option` is `none`
exactly when the record loop panics. -/
def should_sleep (r : FetchResult) : Option (Except Unit Nat) :=
  match r with
  | .transportErr => some (.error ())
  | .body parsed =>
    let maybe_value := parsed.getD Json.null
    match maybe_value.asArray with
    | some array => (processRecords array).map Except.ok
    | none => some (.ok 0)

/-- The value `main` (`src/main.rs` lines 36-38) actually sleeps on:
`should_sleep(..).unwrap_or_default()`, which maps `Err` to 0. The outer
`Option` is still `none` on a panic inside `should_sleep`. -/
def night_time (r : FetchResult) : Option Nat :=
  (should_sleep r).map (fun res => res.toOption.getD 0)

/-- An `f64` value as produced by a successful Rust parse: a finite value
(idealized as its exact rational, see `parseF64`), an infinity with its
sign, or a NaN (whose sign bit is not modelled). -/
inductive F64 where
  | finite (q : Rat)
  | inf (neg : Bool)
  | nan
deriving DecidableEq

/-- Models Rust `str::parse::<f64>()` (`f64::from_str`). The accepted
strings are exactly Rust's documented grammar — optional sign, then one of
case-insensitive `inf` / `infinity` / `nan`, or a number
(`Digits '.'? Digits?` or `'.' Digits`, then an optional exponent `e`/`E`
with optional sign and one or more digits) — and every accepted string
yields `some`, exactly as every grammar-matching string yields `Ok` in
Rust. Values are idealized: a numeric string maps to its exact decimal
rational, where Rust rounds to the nearest `f64` (rounding huge finite
strings such as `"1e999"` to infinity); the success/failure domain is
unaffected by this idealization. -/
def parseF64 (s : String) : Option F64 :=
  let cs0 := s.data
  let signed : Bool × List Char :=
    match cs0 with
    | '-' :: rest => (true, rest)
    | '+' :: rest => (false, rest)
    | cs => (false, cs)
  let isNeg := signed.1
  let cs1 := signed.2
  let lower := cs1.map Char.toLower
  if lower = "inf".data ∨ lower = "infinity".data then
    some (.inf isNeg)
  else if lower = "nan".data then
    some .nan
  else
    let sign : Rat := if isNeg then -1 else 1
    let ip := cs1.takeWhile Char.isDigit
    let cs2 := cs1.dropWhile Char.isDigit
    let fracd : List Char × List Char :=
      match cs2 with
      | '.' :: rest => (rest.takeWhile Char.isDigit, rest.dropWhile Char.isDigit)
      | _ => ([], cs2)
    let fp := fracd.1
    let cs3 := fracd.2
    if ip.isEmpty ∧ fp.isEmpty then none
    else
      let mantissa : Rat :=
        sign * ((digitsToNat ip : Rat) + (digitsToNat fp : Rat) / (10 : Rat) ^ fp.length)
      match cs3 with
      | [] => some (.finite mantissa)
      | e :: rest =>
        if e = 'e' ∨ e = 'E' then
          let esigned : Bool × List Char :=
            match rest with
            | '-' :: r => (true, r)
            | '+' :: r => (false, r)
            | r => (false, r)
          let rest2 := esigned.2
          if rest2.isEmpty then none
          else if rest2.all Char.isDigit then
            let expv := digitsToNat rest2
            some (.finite (if esigned.1 then mantissa / (10 : Rat) ^ expv
                  else mantissa * (10 : Rat) ^ expv))
          else none
        else none

/-- `call_api` from `src/lib.rs` lines 119-136, given the parse result of
the response body (`none` on malformed JSON, replaced by `Value::Null` via
`unwrap_or_else`). The returned observation is the `(symbol, price)` pair
passed to `metrics::update_stock_price` (`src/metrics/mod.rs` lines 51-55),
produced only when `v["price"]` is a string that parses as a number;
otherwise no observation is made and the call still returns `Ok(())`. -/
def call_api (symbol : String) (parsed : Option Json) : Option (String × F64) :=
  let v := parsed.getD Json.null
  match (v.index "price").asStr with
  | some price =>
    match parseF64 price with
    | some p => some (symbol, p)
    | none => none
  | none => none

/-- The `Tickers` struct from `src/lib.rs` lines 165-174: a plain vector of
strings, `Default` being the empty vector. -/
structure Tickers where
  tickers : List String
deriving DecidableEq

/-- Elementwise string extraction used by serde's `Vec<String>`
deserialization: every element must be a JSON string, in order. -/
def stringElems : List Json → Option (List String)
  | [] => some []
  | .str s :: rest => (stringElems rest).map (fun ss => s :: ss)
  | _ => none

/-- serde deserialization of `Tickers` from a JSON value: an object with a
field `tickers` holding an array of strings; unknown fields are ignored,
a missing or ill-typed `tickers` field is an error. No deduplication and
no filtering of any kind is performed. -/
def tickersFromJson (v : Json) : Option Tickers :=
  match v with
  | .obj fields =>
    match fields.lookup "tickers" with
    | some (.arr elems) => (stringElems elems).map Tickers.mk
    | _ => none
  | _ => none

/-- serde serialization of `Tickers`, the value written by `dump_to_file`
(`src/lib.rs` lines 199-204) as `{"tickers":[...]}`. -/
def Tickers.dump_to_file (t : Tickers) : Json :=
  Json.obj [("tickers", Json.arr (t.tickers.map Json.str))]

/-- `read_tickers` from `src/lib.rs` lines 138-142, given what the
filesystem read produced: the outer input `none` models a failed
`fs::read_to_string`, on which the code calls `.unwrap()` and panics
(result `none`); `some parsed` carries the `serde_json::from_str` result
of the content, and any parse or shape error is replaced by the empty set
via `unwrap_or_default`. -/
def read_tickers (file : Option (Option Json)) : Option Tickers :=
  match file with
  | none => none
  | some parsed => some ((parsed.bind tickersFromJson).getD (Tickers.mk []))

/-- The fingerprint `check_tickers` observes, `src/lib.rs` lines 150-155:
`metadata.modified().elapsed().as_secs()` — whole seconds elapsed from the
file's modification time to now, with `unwrap_or_default` yielding 0 when
the modification time lies in the future (exactly `Nat` truncated
subtraction). -/
def elapsed_secs (now mtime : Nat) : Nat := now - mtime

/-- One call of `check_tickers`, `src/lib.rs` lines 144-163, as a pure step:
`last_modified` is the process-wide `LAST_MODIFIED` atomic, `observed` the
fingerprint read this call, `fresh` what `read_tickers` would currently
load. Returns the new atomic value and the optional reloaded set: when the
observed fingerprint differs from the stored one it is stored and the
freshly read set returned, otherwise nothing. -/
def check_tickers (last_modified observed : Nat) (fresh : Tickers) :
    Nat × Option Tickers :=
  if last_modified ≠ observed then (observed, some fresh) else (last_modified, none)

/-- Observable scheduling events of one pass over the ticker list. -/
inductive Event where
  | fetch (symbol : String)
  | sleep (duration : Nat)
deriving DecidableEq

/-- The `for ticker in tickers` loop of `main`, `src/main.rs` lines 50-56:
for each ticker in stored order, one API fetch followed by one sleep of
`sleep_duration` seconds — including after the last ticker. -/
def cycleLoop (tickers : List String) (sleep_duration : Nat) : List Event :=
  match tickers with
  | [] => []
  | ticker :: rest => .fetch ticker :: .sleep sleep_duration :: cycleLoop rest sleep_duration

/-- One symbol-iteration cycle of `main`, `src/main.rs` lines 46-56: the
delay is `calculate_sleep_duration(len, 8, 60, 800, 23400)` (the literal
`(6.5 * 60. * 60.) as u64` is 23400), and the loop body uses it after every
fetch. `getD 0` unwraps the `Option`; the loop body only runs when the list
is nonempty, where the option is always `some`. -/
def symbolCycle (tickers : List String) : List Event :=
  let num_tickers := tickers.length
  let sleep_duration := (calculate_sleep_duration num_tickers 8 60 800 23400).getD 0
  cycleLoop tickers sleep_duration

/-- C1: `calculate_sleep_duration` returns `none` iff `num_tickers = 0`, and
for every positive count returns `some` of the minimum of the two tier
delays, each a clamped-at-zero subtraction (`period_a - floor(limit_a / n)`
and `period_b - (limit_b - n)`); in particular
`calculate_sleep_duration 5 8 60 800 23400 = some 59`. -/
theorem calculate_sleep_duration_spec (n l1 p1 l2 p2 : Nat) :
    (calculate_sleep_duration n l1 p1 l2 p2 = none ↔ n = 0) ∧
    (0 < n → calculate_sleep_duration n l1 p1 l2 p2 =
      some (min (p1 - l1 / n) (p2 - (l2 - n)))) ∧
    calculate_sleep_duration 5 8 60 800 23400 = some 59 := by
  refine ⟨?_, ?_, by decide⟩
  · by_cases h : n = 0 <;> simp [calculate_sleep_duration, h]
  · intro hpos
    have h : ¬ n = 0 := Nat.pos_iff_ne_zero.mp hpos
    simp [calculate_sleep_duration, h]

/-- C1 witness: the positive-count branch of the theorem instantiated at the
spec's table-driven example. -/
theorem calculate_sleep_duration_spec_witness :
    calculate_sleep_duration 5 8 60 800 23400 =
      some (min (60 - 8 / 5) (23400 - (800 - 5))) :=
  (calculate_sleep_duration_spec 5 8 60 800 23400).2.1 (by decide)

/-- C10: with the rate limits and periods fixed, the computed inter-call
delay never decreases as the ticker count grows. -/
theorem calculate_sleep_duration_monotone (l1 p1 l2 p2 n1 n2 d1 d2 : Nat)
    (hpos : 0 < n1) (hle : n1 ≤ n2)
    (h1 : calculate_sleep_duration n1 l1 p1 l2 p2 = some d1)
    (h2 : calculate_sleep_duration n2 l1 p1 l2 p2 = some d2) : d1 ≤ d2 := by
  have hn1 : ¬ n1 = 0 := Nat.pos_iff_ne_zero.mp hpos
  have hn2 : ¬ n2 = 0 := Nat.pos_iff_ne_zero.mp (lt_of_lt_of_le hpos hle)
  simp only [calculate_sleep_duration, if_neg hn1, if_neg hn2,
    Option.some.injEq] at h1 h2
  rw [← h1, ← h2]
  exact min_le_min
    (Nat.sub_le_sub_left (Nat.div_le_div_left hle hpos) p1)
    (Nat.sub_le_sub_left (Nat.sub_le_sub_left hle l2) p2)

/-- C10 witness: monotonicity applied at ticker counts 1 and 5 with the
compiled-in rate limits. -/
theorem calculate_sleep_duration_monotone_witness :
    calculate_sleep_duration 1 8 60 800 23400 = some 52 ∧
    calculate_sleep_duration 5 8 60 800 23400 = some 59 ∧ (52 : Nat) ≤ 59 :=
  ⟨by decide, by decide,
    calculate_sleep_duration_monotone 8 60 800 23400 1 5 52 59
      (by decide) (by decide) (by decide) (by decide)⟩

/-- C2 counterexample: on a transport failure `should_sleep` does not return
0 — it propagates the error (`?` on `reqwest::get` / `Response::text`) to
its caller. -/
theorem should_sleep_transport_error_counterexample :
    should_sleep FetchResult.transportErr ≠ some (Except.ok 0) ∧
    should_sleep FetchResult.transportErr = some (Except.error ()) := by
  constructor
  · intro h
    simp [should_sleep] at h
  · rfl

/-- C2 amended: on a parse failure of the market-state body `should_sleep`
itself returns `Ok(0)`; on a transport failure it returns `Err`, which its
caller in `main` maps to 0 via `unwrap_or_default` — so the effective sleep
is 0 for both failure kinds and the loop never crashes. -/
theorem should_sleep_fail_open_amended :
    should_sleep (FetchResult.body none) = some (Except.ok 0) ∧
    night_time FetchResult.transportErr = some 0 ∧
    night_time (FetchResult.body none) = some 0 :=
  ⟨rfl, rfl, rfl⟩

/-- C3 counterexample: with the market reported closed and
`time_to_open = "soon"` — fewer than three colon-separated components — the
countdown handling of `should_sleep` panics (indexes past the end of the
split) instead of treating the unparsable components as 0. -/
theorem time_to_open_panic_counterexample :
    should_sleep (FetchResult.body (some (Json.arr [Json.obj
      [("is_market_open", Json.bool false),
       ("time_to_open", Json.str "soon")]]))) = none := by
  rfl

/-- C3 amended: whenever the first market-state record reports the market
closed with a string countdown that splits into at least three
colon-separated components, `should_sleep` returns `Ok` of
`hours*3600 + minutes*60 + seconds` in `u64` arithmetic, each component
taken as 0 when it fails to parse as `u64`; with fewer than three
components the computation panics instead of defaulting. -/
theorem time_to_open_parse_amended (t : String) (rest : List Json)
    (h : 3 ≤ (splitColon t).length) :
    should_sleep (FetchResult.body (some (Json.arr (Json.obj
      [("is_market_open", Json.bool false), ("time_to_open", Json.str t)]
      :: rest)))) =
    some (Except.ok ((((parseU64 ((splitColon t).getD 0 "")).getD 0) * 3600 +
      ((parseU64 ((splitColon t).getD 1 "")).getD 0) * 60 +
      ((parseU64 ((splitColon t).getD 2 "")).getD 0)) % u64Mod)) := by
  have key : should_sleep (FetchResult.body (some (Json.arr (Json.obj
      [("is_market_open", Json.bool false), ("time_to_open", Json.str t)]
      :: rest)))) =
      (if 3 ≤ (splitColon t).length then
        some ((((parseU64 ((splitColon t).getD 0 "")).getD 0) * 3600 +
          ((parseU64 ((splitColon t).getD 1 "")).getD 0) * 60 +
          ((parseU64 ((splitColon t).getD 2 "")).getD 0)) % u64Mod)
      else none).map Except.ok := rfl
  rw [key, if_pos h]
  rfl

/-- C3 witness: the amended theorem at the spec's example record, where the
countdown `"1:30:15"` yields `1*3600 + 30*60 + 15 = 5415` seconds. -/
theorem time_to_open_parse_amended_witness :
    3 ≤ (splitColon "1:30:15").length ∧
    should_sleep (FetchResult.body (some (Json.arr [Json.obj
      [("is_market_open", Json.bool false),
       ("time_to_open", Json.str "1:30:15")]]))) = some (Except.ok 5415) := by
  refine ⟨by decide, ?_⟩
  have h := time_to_open_parse_amended "1:30:15" [] (by decide)
  exact h.trans (by rfl)

/-- C4 (code defect): the fingerprint `check_tickers` compares is seconds
*elapsed since* the file's modification time, which keeps growing as
wall-clock time passes even when the record is never modified. With the
modification time fixed at 100 s, a first call at 105 s observes
fingerprint 5, stores it and reloads; a second call one second later — with
no modification in between — observes fingerprint 6 ≠ 5 and reloads again,
where the claim requires "no change" the second time. -/
theorem check_tickers_elapsed_fingerprint_bug :
    (check_tickers 0 (elapsed_secs 105 100) (Tickers.mk ["AAPL"])).1 = 5 ∧
    (check_tickers (check_tickers 0 (elapsed_secs 105 100)
        (Tickers.mk ["AAPL"])).1
      (elapsed_secs 106 100) (Tickers.mk ["AAPL"])).2 =
      some (Tickers.mk ["AAPL"]) := by
  decide

theorem cycleLoop_length (ts : List String) (d : Nat) :
    (cycleLoop ts d).length = 2 * ts.length := by
  induction ts with
  | nil => rfl
  | cons t rest ih =>
    simp [cycleLoop, ih]
    omega

theorem cycleLoop_get (d : Nat) (ts : List String) :
    ∀ (i : Nat) (h : i < ts.length),
      (cycleLoop ts d)[2 * i]? = some (Event.fetch ts[i]) ∧
      (cycleLoop ts d)[2 * i + 1]? = some (Event.sleep d) := by
  induction ts with
  | nil => intro i h; simp at h
  | cons t rest ih =>
    intro i h
    cases i with
    | zero => simp [cycleLoop]
    | succ j =>
      have hj : j < rest.length := Nat.lt_of_succ_lt_succ h
      have e1 : 2 * (j + 1) = (2 * j + 1) + 1 := by ring
      obtain ⟨ih1, ih2⟩ := ih j hj
      constructor
      · rw [e1]
        simpa [cycleLoop] using ih1
      · rw [e1]
        simpa [cycleLoop] using ih2

/-- C5: in each polling cycle the symbols are fetched sequentially in the
TickerSet's stored order — the cycle's event list pairs the i-th fetch with
an immediately following sleep of the delay computed by
`calculate_sleep_duration`, for every i including the last — and has length
`2 * n`, so the cycle ends with the trailing sleep, not a fetch. -/
theorem symbol_cycle_order_and_trailing_sleep (ts : List String) (d : Nat)
    (hd : calculate_sleep_duration ts.length 8 60 800 23400 = some d) :
    (symbolCycle ts).length = 2 * ts.length ∧
    ∀ (i : Nat) (h : i < ts.length),
      (symbolCycle ts)[2 * i]? = some (Event.fetch ts[i]) ∧
      (symbolCycle ts)[2 * i + 1]? = some (Event.sleep d) := by
  have hsc : symbolCycle ts = cycleLoop ts d := by
    simp [symbolCycle, hd]
  rw [hsc]
  exact ⟨cycleLoop_length ts d, cycleLoop_get d ts⟩

/-- C5 witness: with tickers `["AAPL", "MSFT"]` the computed delay is 56 s
and the cycle is fetch/sleep/fetch/sleep — the event after the last fetch
is a sleep of 56 s. -/
theorem symbol_cycle_order_and_trailing_sleep_witness :
    (symbolCycle ["AAPL", "MSFT"]).length = 4 ∧
    (symbolCycle ["AAPL", "MSFT"])[2]? = some (Event.fetch "MSFT") ∧
    (symbolCycle ["AAPL", "MSFT"])[3]? = some (Event.sleep 56) := by
  have h := symbol_cycle_order_and_trailing_sleep ["AAPL", "MSFT"] 56 (by decide)
  exact ⟨h.1, (h.2 1 (by decide)).1, (h.2 1 (by decide)).2⟩

/-- C6: `call_api` produces a price observation for the requested symbol
exactly when the response body is a JSON object whose `price` field is a
string accepted by Rust's `f64` parse, and the observation carries exactly
the parsed value; every other body — malformed JSON, a missing `price`
field, a non-string `price`, or an unparsable number — yields no
observation. -/
theorem call_api_observation_iff (symbol : String) (parsed : Option Json)
    (ob : String × F64) :
    call_api symbol parsed = some ob ↔
      ∃ (fields : List (String × Json)) (s : String) (p : F64),
        parsed = some (Json.obj fields) ∧
        fields.lookup "price" = some (Json.str s) ∧
        parseF64 s = some p ∧ ob = (symbol, p) := by
  constructor
  · intro h
    cases parsed with
    | none => simp [call_api, Json.index, Json.asStr] at h
    | some v =>
      cases v with
      | obj fields =>
        cases hl : fields.lookup "price" with
        | none => simp [call_api, Json.index, hl, Json.asStr] at h
        | some j =>
          cases j with
          | str s =>
            cases hp : parseF64 s with
            | none => simp [call_api, Json.index, hl, Json.asStr, hp] at h
            | some q =>
              simp [call_api, Json.index, hl, Json.asStr, hp] at h
              exact ⟨fields, s, q, rfl, hl, hp, h.symm⟩
          | null => simp [call_api, Json.index, hl, Json.asStr] at h
          | bool b => simp [call_api, Json.index, hl, Json.asStr] at h
          | num q => simp [call_api, Json.index, hl, Json.asStr] at h
          | arr es => simp [call_api, Json.index, hl, Json.asStr] at h
          | obj fs => simp [call_api, Json.index, hl, Json.asStr] at h
      | null => simp [call_api, Json.index, Json.asStr] at h
      | bool b => simp [call_api, Json.index, Json.asStr] at h
      | num q => simp [call_api, Json.index, Json.asStr] at h
      | str s => simp [call_api, Json.index, Json.asStr] at h
      | arr es => simp [call_api, Json.index, Json.asStr] at h
  · rintro ⟨fields, s, q, rfl, hl, hp, rfl⟩
    simp [call_api, Json.index, hl, Json.asStr, hp]

/-- C6 witness: the spec's example body `{"price":"179.64000"}` yields the
observation `179.64` (exactly `17964 / 100`) for the requested symbol, and
a body `{"price":"inf"}` — accepted by Rust's `f64` parse — also yields an
observation. -/
theorem call_api_observation_iff_witness :
    call_api "AAPL" (some (Json.obj [("price", Json.str "179.64000")])) =
      some ("AAPL", F64.finite ((17964 : Rat) / 100)) ∧
    call_api "SPY" (some (Json.obj [("price", Json.str "inf")])) =
      some ("SPY", F64.inf false) := by
  constructor
  · refine (call_api_observation_iff "AAPL" _ _).mpr ?_
    refine ⟨[("price", Json.str "179.64000")], "179.64000",
      F64.finite ((17964 : Rat) / 100), rfl, rfl, ?_, rfl⟩
    have h1 : parseF64 "179.64000" = some (F64.finite ((1 : Rat) *
        (((179 : Nat) : Rat) + ((64000 : Nat) : Rat) / (10 : Rat) ^ (5 : Nat)))) :=
      rfl
    rw [h1]
    simp only [Option.some.injEq, F64.finite.injEq]
    norm_num
  · refine (call_api_observation_iff "SPY" _ _).mpr ?_
    exact ⟨[("price", Json.str "inf")], "inf", F64.inf false, rfl, rfl, rfl, rfl⟩

theorem stringElems_map_str (ss : List String) :
    stringElems (ss.map Json.str) = some ss := by
  induction ss with
  | nil => rfl
  | cons s rest ih => simp [stringElems, ih]

/-- C8 counterexample: a record storing `["", "A", "A"]` loads successfully
into a `Tickers` that contains a duplicate symbol and an empty string — the
load performs no deduplication and no filtering. -/
theorem tickers_load_duplicates_counterexample :
    read_tickers (some (some (Json.obj [("tickers",
      Json.arr [Json.str "", Json.str "A", Json.str "A"])]))) =
      some (Tickers.mk ["", "A", "A"]) ∧
    ¬ (["", "A", "A"] : List String).Nodup ∧
    ("" : String) ∈ (["", "A", "A"] : List String) := by
  refine ⟨rfl, by decide, by decide⟩

/-- C8 amended: a successful load yields exactly the symbol sequence stored
in the backing record, in order, with no deduplication and no empty-string
filtering — so the loaded set is duplicate-free and empty-string-free only
when the stored record already is. -/
theorem tickers_load_verbatim_amended (ss : List String) :
    read_tickers (some (some (Json.obj [("tickers",
      Json.arr (ss.map Json.str))]))) = some (Tickers.mk ss) := by
  simp [read_tickers, tickersFromJson, List.lookup, stringElems_map_str]

/-- C9: round-trip — serializing any `Tickers` with `dump_to_file` and
loading the written record back with `read_tickers` yields the original
sequence with element order preserved; in particular for
`["AAPL", "MSFT"]`. -/
theorem tickers_roundtrip (t : Tickers) :
    read_tickers (some (some t.dump_to_file)) = some t ∧
    read_tickers (some (some (Tickers.mk ["AAPL", "MSFT"]).dump_to_file)) =
      some (Tickers.mk ["AAPL", "MSFT"]) := by
  constructor
  · obtain ⟨ss⟩ := t
    simp [Tickers.dump_to_file, read_tickers, tickersFromJson, List.lookup,
      stringElems_map_str]
  · rfl
